import Mathlib

/-!
Verification development for the `rem` repository.

Shallow embedding of `src/metrics/slp.py` (functions `compute_atp` and
`compute_app`) and of the constants it reads from `src/utils/constants.py`.
Machine floats are modelled by real numbers, `numpy.exp` by `Real.exp`,
and the failing `assert` on the pollutant argument by an `Option` result
(`none` = the assertion error, i.e. the spec's `InvalidPollutant`).

The two collaborator lookups `variables.get_scaled_climate_sensitivity`
and `scaling.get_mm_scaling` (module `simulations`, not part of the core)
are modelled as explicit parameters bundled in a `Collab` record, so every
theorem quantifies over their possible return values.
-/

namespace Rem

/-- List of single lifetime pollutants (`constants.SLP`). -/
def SLP : List String := ["SO2", "BC", "CH4"]

/-- Climate sensitivity coefficient (`constants.C1`, K/m^2). -/
noncomputable def C1 : ℝ := 0.631

/-- Climate sensitivity coefficient (`constants.C2`, K/m^2). -/
noncomputable def C2 : ℝ := 0.429

/-- Timescales of climate sensitivity (`constants.D = [8.4, 409.5]`, years).
The list has exactly two entries, modelled as a vector indexed by `Fin 2`. -/
noncomputable def D : Fin 2 → ℝ := ![8.4, 409.5]

/-- Conversion factor from latent heat to precipitation units (`constants.CF`). -/
noncomputable def CF : ℝ := 0.034

/-- Scalar pollutant specification record: the fields of `constants.SPECS[p]`
that `slp.py` reads (`tau`, `tau_std`, `fp`, `k`). -/
structure Spec where
  tau : ℝ
  tau_std : ℝ
  fp : ℝ
  k : ℝ

/-- `constants.SPECS['SO2']`. -/
noncomputable def SPEC_SO2 : Spec :=
  ⟨4.35 / 365, Real.sqrt ((0.08 / 365) ^ 2 + (0.7 / 365) ^ 2), -0.4, 2.678⟩

/-- `constants.SPECS['BC']`. -/
noncomputable def SPEC_BC : Spec := ⟨6.8 / 365, 1.8 / 365, 1, 2.675⟩

/-- `constants.SPECS['CH4']` (`tau = 9.7 * 1.24`, the 1.24 being the factor f). -/
noncomputable def SPEC_CH4 : Spec := ⟨9.7 * 1.24, 1.5, 1, 2.766⟩

/-- The scalar-record part of `constants.SPECS`.  The CO2 entry of the source
table has a 3-element lifetime vector instead of a scalar `tau`, so it has no
scalar record here; `slp.py` never reads it (its pollutant check rejects CO2
before any table access), and every other key is absent from the dict. -/
noncomputable def SPECS (p : String) : Option Spec :=
  if p = "SO2" then some SPEC_SO2
  else if p = "BC" then some SPEC_BC
  else if p = "CH4" then some SPEC_CH4
  else none

/-- The two collaborator lookups consumed by `compute_atp`
(`simulations.variables.get_scaled_climate_sensitivity`, a 2-element
coefficient sequence per pollutant, and `simulations.scaling.get_mm_scaling`,
a 2-element scaling-factor sequence per pollutant), modelled as parameters. -/
structure Collab where
  get_scaled_climate_sensitivity : String → ℝ × ℝ
  get_mm_scaling : String → ℝ × ℝ

/-- The climate-sensitivity coefficients `c_scaled` that `compute_atp` resolves:
the collaborator lookup when `c_scaling`, else the defaults `[C1, C2]`
(lines 64-68 of `slp.py`). -/
noncomputable def resolveC (env : Collab) (pollutant : String) (c_scaling : Bool) :
    Fin 2 → ℝ :=
  if c_scaling then
    ![(env.get_scaled_climate_sensitivity pollutant).1,
      (env.get_scaled_climate_sensitivity pollutant).2]
  else ![C1, C2]

/-- The radiative efficiency actually used by `compute_atp` after the
SO2-only `erf_scaling` adjustment (lines 70-73 of `slp.py`). -/
noncomputable def resolveRadEff (env : Collab) (pollutant : String) (rad_eff : ℝ)
    (erf_scaling : Bool) : ℝ :=
  if pollutant = "SO2" then
    if erf_scaling then rad_eff
    else rad_eff / (env.get_mm_scaling pollutant).2
  else rad_eff

/-- Integrated absolute temperature potential for one lifetime value:
the two-term sum of lines 76-78 of `slp.py`. -/
noncomputable def iatp_sum (rad_eff tau th : ℝ) (c : Fin 2 → ℝ) : ℝ :=
  ∑ j : Fin 2, (rad_eff * tau * c j / (tau - D j)) *
    (tau * (1 - Real.exp (-th / tau)) - D j * (1 - Real.exp (-th / D j)))

/-- Pulse absolute temperature potential for one lifetime value:
the two-term sum of lines 81-83 of `slp.py`. -/
noncomputable def atp_sum (rad_eff tau th : ℝ) (c : Fin 2 → ℝ) : ℝ :=
  ∑ j : Fin 2, ((rad_eff * tau * c j) / (tau - D j)) *
    (Real.exp (-th / tau) - Real.exp (-th / D j))

/-- A value returned by `compute_atp`: a numpy scalar, or the 3-element array
produced by broadcasting over the lifetime range. -/
inductive NumVal where
  | scalar (x : ℝ)
  | vec3 (v : Fin 3 → ℝ)

/-- The lifetime-range array `[tau - tau_std, tau, tau + tau_std]`
built on lines 55-60 of `slp.py`. -/
noncomputable def taus (s : Spec) : Fin 3 → ℝ :=
  ![s.tau - s.tau_std, s.tau, s.tau + s.tau_std]

/-- The pair of potentials computed from the resolved inputs: a scalar pair,
or (when `lifetime_range`) the element-wise broadcast over `taus`. -/
noncomputable def atpPair (re : ℝ) (s : Spec) (th : ℝ) (c : Fin 2 → ℝ)
    (lifetime_range : Bool) : NumVal × NumVal :=
  if lifetime_range then
    (NumVal.vec3 fun i => iatp_sum re (taus s i) th c,
     NumVal.vec3 fun i => atp_sum re (taus s i) th c)
  else
    (NumVal.scalar (iatp_sum re s.tau th c), NumVal.scalar (atp_sum re s.tau th c))

/-- `slp.compute_atp`.  `none` models the `assert pollutant in constants.SLP`
failure (the spec's `InvalidPollutant`); the inner `none` branch is
unreachable for members of `SLP`. -/
noncomputable def compute_atp (env : Collab) (pollutant : String) (rad_eff th : ℝ)
    (c_scaling erf_scaling lifetime_range : Bool) : Option (NumVal × NumVal) :=
  if pollutant ∈ SLP then
    match SPECS pollutant with
    | none => none
    | some s =>
        some (atpPair (resolveRadEff env pollutant rad_eff erf_scaling) s th
          (resolveC env pollutant c_scaling) lifetime_range)
  else none

/-- `slp.compute_app`.  Returns the 6-tuple
`(iarpp, slow_iarpp, fast_iarpp, arpp, slow_arpp, fast_arpp)` of lines
152-170 of `slp.py`; `none` models the failing pollutant assertion. -/
noncomputable def compute_app (env : Collab) (pollutant : String)
    (rad_eff rad_eff_a th rr_precip_avg precip_avg : ℝ) :
    Option (ℝ × ℝ × ℝ × ℝ × ℝ × ℝ) :=
  if pollutant ∈ SLP then
    match SPECS pollutant with
    | none => none
    | some s =>
        match compute_atp env pollutant rad_eff th true true false with
        | some (NumVal.scalar iagtp, NumVal.scalar agtp) =>
            some (CF * (s.k * iagtp - s.fp * rad_eff_a * s.tau *
                    (1 - Real.exp (-th / s.tau))) * (rr_precip_avg / precip_avg),
                  CF * s.k * iagtp * (rr_precip_avg / precip_avg),
                  CF * (-s.fp) * rad_eff_a * s.tau * (1 - Real.exp (-th / s.tau)) *
                    (rr_precip_avg / precip_avg),
                  CF * (s.k * agtp - s.fp * rad_eff_a * Real.exp (-th / s.tau)) *
                    (rr_precip_avg / precip_avg),
                  CF * s.k * agtp * (rr_precip_avg / precip_avg),
                  CF * (-s.fp) * rad_eff_a * Real.exp (-th / s.tau) *
                    (rr_precip_avg / precip_avg))
        | _ => none
  else none

/-- Spec-side formula for the integrated ATP, transcribed from the spec text:
`iATP = Σ_j [rad_eff·tau·c[j]/(tau − D[j])]·[tau·(1 − e^(−th/tau)) − D[j]·(1 − e^(−th/D[j]))]`
with the two terms `D[0] = 8.4`, `D[1] = 409.5` written out. -/
noncomputable def spec_iATP (rad_eff tau c1 c2 th : ℝ) : ℝ :=
  (rad_eff * tau * c1 / (tau - 8.4)) *
    (tau * (1 - Real.exp (-th / tau)) - 8.4 * (1 - Real.exp (-th / 8.4))) +
  (rad_eff * tau * c2 / (tau - 409.5)) *
    (tau * (1 - Real.exp (-th / tau)) - 409.5 * (1 - Real.exp (-th / 409.5)))

/-- Spec-side formula for the pulse ATP, transcribed from the spec text:
`ATP = Σ_j [rad_eff·tau·c[j]/(tau − D[j])]·[e^(−th/tau) − e^(−th/D[j])]`
with the two terms `D[0] = 8.4`, `D[1] = 409.5` written out. -/
noncomputable def spec_ATP (rad_eff tau c1 c2 th : ℝ) : ℝ :=
  (rad_eff * tau * c1 / (tau - 8.4)) * (Real.exp (-th / tau) - Real.exp (-th / 8.4)) +
  (rad_eff * tau * c2 / (tau - 409.5)) * (Real.exp (-th / tau) - Real.exp (-th / 409.5))

/-- Modelled from the spec: the collaborator lookups (outside the core, module
`simulations` is not part of `src/`) return climate-sensitivity coefficients
and multi-model scaling factors — positive physical scaling quantities (the
unscaled defaults are the positive `C1`, `C2`; the mm factor scales radiative
forcing between models).  Only the second mm component is consumed. -/
def ValidCollab (env : Collab) : Prop :=
  ∀ p, 0 < (env.get_scaled_climate_sensitivity p).1 ∧
       0 < (env.get_scaled_climate_sensitivity p).2 ∧
       0 < (env.get_mm_scaling p).2

/-- A concrete collaborator instance used by the witness theorems: the
lookups return the unscaled defaults and unit scaling factors. -/
noncomputable def defaultCollab : Collab :=
  ⟨fun _ => (0.631, 0.429), fun _ => (1, 1)⟩

/-! Helper lemmas: unfolding `compute_atp` and `compute_app` for valid
pollutants, and the arithmetic facts about the constants table. -/

/-- Membership in `SLP` is membership in the three-element list. -/
lemma mem_SLP_iff (p : String) : p ∈ SLP ↔ p = "SO2" ∨ p = "BC" ∨ p = "CH4" := by
  simp [SLP]

/-- Every single-lifetime pollutant has a scalar specification record. -/
lemma specs_of_mem {p : String} (hp : p ∈ SLP) : ∃ s, SPECS p = some s := by
  rcases (mem_SLP_iff p).1 hp with rfl | rfl | rfl <;>
    simp [SPECS, SPEC_SO2, SPEC_BC, SPEC_CH4]

/-- Scalar-mode unfolding of `compute_atp` for a valid pollutant. -/
lemma compute_atp_scalar (env : Collab) {p : String} (hp : p ∈ SLP) (r th : ℝ)
    (cs es : Bool) {s : Spec} (hs : SPECS p = some s) :
    compute_atp env p r th cs es false =
      some (NumVal.scalar (iatp_sum (resolveRadEff env p r es) s.tau th (resolveC env p cs)),
            NumVal.scalar (atp_sum (resolveRadEff env p r es) s.tau th (resolveC env p cs))) := by
  simp [compute_atp, hp, hs, atpPair]

/-- Range-mode unfolding of `compute_atp` for a valid pollutant. -/
lemma compute_atp_range (env : Collab) {p : String} (hp : p ∈ SLP) (r th : ℝ)
    (cs es : Bool) {s : Spec} (hs : SPECS p = some s) :
    compute_atp env p r th cs es true =
      some (NumVal.vec3 fun i =>
              iatp_sum (resolveRadEff env p r es) (taus s i) th (resolveC env p cs),
            NumVal.vec3 fun i =>
              atp_sum (resolveRadEff env p r es) (taus s i) th (resolveC env p cs)) := by
  simp [compute_atp, hp, hs, atpPair]

/-- Unfolding of `compute_app` for a valid pollutant: the six returned
components, with the internally computed potentials exposed. -/
lemma compute_app_eq (env : Collab) {p : String} (hp : p ∈ SLP)
    (r ra th rr pr : ℝ) {s : Spec} (hs : SPECS p = some s) :
    compute_app env p r ra th rr pr =
      some (CF * (s.k * iatp_sum r s.tau th (resolveC env p true) -
              s.fp * ra * s.tau * (1 - Real.exp (-th / s.tau))) * (rr / pr),
            CF * s.k * iatp_sum r s.tau th (resolveC env p true) * (rr / pr),
            CF * (-s.fp) * ra * s.tau * (1 - Real.exp (-th / s.tau)) * (rr / pr),
            CF * (s.k * atp_sum r s.tau th (resolveC env p true) -
              s.fp * ra * Real.exp (-th / s.tau)) * (rr / pr),
            CF * s.k * atp_sum r s.tau th (resolveC env p true) * (rr / pr),
            CF * (-s.fp) * ra * Real.exp (-th / s.tau) * (rr / pr)) := by
  have hre : resolveRadEff env p r true = r := by
    unfold resolveRadEff
    split <;> rfl
  rw [compute_app, if_pos hp, hs, compute_atp_scalar env hp r th true true hs, hre]

/-- The SO2 lifetime standard deviation is nonnegative and smaller than the
SO2 lifetime itself. -/
lemma SO2_tau_std_bounds :
    0 ≤ SPEC_SO2.tau_std ∧ SPEC_SO2.tau_std < 4.35 / 365 := by
  constructor
  · exact Real.sqrt_nonneg _
  · have h : ((0.08 : ℝ) / 365) ^ 2 + (0.7 / 365) ^ 2 < (4.35 / 365) ^ 2 := by norm_num
    have := Real.sqrt_lt_sqrt (by positivity) h
    calc SPEC_SO2.tau_std < Real.sqrt ((4.35 / 365) ^ 2) := this
    _ = 4.35 / 365 := Real.sqrt_sq (by norm_num)

/-- Every lifetime value the core can use — nominal `tau` and the two
lifetime-range endpoints — is strictly positive and distinct from both
decay timescales 8.4 and 409.5. -/
lemma specs_tau_facts {p : String} (hp : p ∈ SLP) :
    ∃ s, SPECS p = some s ∧
      ∀ t ∈ [s.tau - s.tau_std, s.tau, s.tau + s.tau_std],
        0 < t ∧ t ≠ 8.4 ∧ t ≠ 409.5 := by
  rcases (mem_SLP_iff p).1 hp with rfl | rfl | rfl
  · refine ⟨SPEC_SO2, by simp [SPECS], ?_⟩
    obtain ⟨h0, h1⟩ := SO2_tau_std_bounds
    have htau : SPEC_SO2.tau = 4.35 / 365 := rfl
    intro t ht
    simp only [List.mem_cons, List.mem_singleton, List.not_mem_nil, or_false] at ht
    rcases ht with rfl | rfl | rfl <;>
      refine ⟨by rw [htau]; nlinarith, fun h => by rw [htau] at h; nlinarith,
              fun h => by rw [htau] at h; nlinarith⟩
  · refine ⟨SPEC_BC, by simp [SPECS], ?_⟩
    intro t ht
    simp only [List.mem_cons, List.mem_singleton, List.not_mem_nil, or_false] at ht
    have e1 : SPEC_BC.tau = 6.8 / 365 := rfl
    have e2 : SPEC_BC.tau_std = 1.8 / 365 := rfl
    rcases ht with rfl | rfl | rfl <;> simp only [e1, e2] <;> norm_num
  · refine ⟨SPEC_CH4, by simp [SPECS], ?_⟩
    intro t ht
    simp only [List.mem_cons, List.mem_singleton, List.not_mem_nil, or_false] at ht
    have e1 : SPEC_CH4.tau = 9.7 * 1.24 := rfl
    have e2 : SPEC_CH4.tau_std = 1.5 := rfl
    rcases ht with rfl | rfl | rfl <;> simp only [e1, e2] <;> norm_num

/-- Derivative of one box response `t ↦ s·(1 − e^(−t/s))`. -/
lemma hasDerivAt_box (s : ℝ) (hs : s ≠ 0) (t : ℝ) :
    HasDerivAt (fun u => s * (1 - Real.exp (-u / s))) (Real.exp (-t / s)) t := by
  have h1 : HasDerivAt (fun u : ℝ => -u / s) (-1 / s) t := by
    simpa using ((hasDerivAt_id t).neg.div_const s)
  have h2 : HasDerivAt (fun u : ℝ => Real.exp (-u / s)) (Real.exp (-t / s) * (-1 / s)) t :=
    h1.exp
  have h3 := (h2.const_sub 1).const_mul s
  convert h3 using 1
  field_simp

/-- Derivative of one summation term of the integrated potential, as a
function of the time horizon. -/
lemma hasDerivAt_term (A s d : ℝ) (hs : s ≠ 0) (hd : d ≠ 0) (t : ℝ) :
    HasDerivAt
      (fun u => (A / (s - d)) * (s * (1 - Real.exp (-u / s)) - d * (1 - Real.exp (-u / d))))
      ((A / (s - d)) * (Real.exp (-t / s) - Real.exp (-t / d))) t :=
  ((hasDerivAt_box s hs t).sub (hasDerivAt_box d hd t)).const_mul (A / (s - d))

/-- One summation term of the integrated potential is monotone on `[0, ∞)`
whenever the numerator `A` is nonnegative and both timescales are positive
(no assumption that they differ: a coincident pair gives the zero function). -/
lemma term_monotoneOn (A s d : ℝ) (hA : 0 ≤ A) (hs : 0 < s) (hd : 0 < d) :
    MonotoneOn
      (fun t => (A / (s - d)) * (s * (1 - Real.exp (-t / s)) - d * (1 - Real.exp (-t / d))))
      (Set.Ici (0 : ℝ)) := by
  apply monotoneOn_of_deriv_nonneg (convex_Ici 0)
  · exact Continuous.continuousOn (by fun_prop)
  · intro x _
    exact (hasDerivAt_term A s d hs.ne' hd.ne' x).differentiableAt.differentiableWithinAt
  · intro x hx
    rw [interior_Ici] at hx
    rw [(hasDerivAt_term A s d hs.ne' hd.ne' x).deriv]
    have hx0 : (0 : ℝ) ≤ x := le_of_lt hx
    rcases lt_trichotomy s d with h | h | h
    · have hK : A / (s - d) ≤ 0 :=
        div_nonpos_of_nonneg_of_nonpos hA (by linarith)
      have hE : Real.exp (-x / s) - Real.exp (-x / d) ≤ 0 := by
        have h2 : x / d ≤ x / s := by gcongr
        have h3 : -x / s ≤ -x / d := by rw [neg_div, neg_div]; linarith
        have := Real.exp_le_exp.2 h3
        linarith
      nlinarith
    · subst h
      simp
    · have hK : 0 ≤ A / (s - d) := div_nonneg hA (by linarith)
      have hE : 0 ≤ Real.exp (-x / s) - Real.exp (-x / d) := by
        have h2 : x / s ≤ x / d := by gcongr
        have h3 : -x / d ≤ -x / s := by rw [neg_div, neg_div]; linarith
        have := Real.exp_le_exp.2 h3
        linarith
      exact mul_nonneg hK hE

/-- The integrated potential is monotone in the time horizon on `[0, ∞)`
for a positive lifetime, nonnegative radiative efficiency and nonnegative
sensitivity coefficients. -/
lemma iatp_sum_monotoneOn (re tau : ℝ) (c : Fin 2 → ℝ) (hre : 0 ≤ re)
    (htau : 0 < tau) (hc : ∀ j, 0 ≤ c j) :
    MonotoneOn (fun th => iatp_sum re tau th c) (Set.Ici (0 : ℝ)) := by
  have h0 := term_monotoneOn (re * tau * c 0) tau 8.4
    (by have := hc 0; positivity) htau (by norm_num)
  have h1 := term_monotoneOn (re * tau * c 1) tau 409.5
    (by have := hc 1; positivity) htau (by norm_num)
  intro a ha b hb hab
  have e : ∀ t : ℝ, iatp_sum re tau t c =
      (re * tau * c 0 / (tau - 8.4)) *
        (tau * (1 - Real.exp (-t / tau)) - 8.4 * (1 - Real.exp (-t / 8.4))) +
      (re * tau * c 1 / (tau - 409.5)) *
        (tau * (1 - Real.exp (-t / tau)) - 409.5 * (1 - Real.exp (-t / 409.5))) := by
    intro t
    simp [iatp_sum, Fin.sum_univ_two, D]
  show iatp_sum re tau a c ≤ iatp_sum re tau b c
  rw [e a, e b]
  exact add_le_add (h0 ha hb hab) (h1 ha hb hab)

/-- For valid collaborators, the radiative efficiency used downstream stays
positive when the supplied one is. -/
lemma resolveRadEff_pos {env : Collab} (henv : ValidCollab env) (p : String)
    {r : ℝ} (hr : 0 < r) (es : Bool) : 0 < resolveRadEff env p r es := by
  unfold resolveRadEff
  split
  · split
    · exact hr
    · exact div_pos hr (henv p).2.2
  · exact hr

/-- For valid collaborators, the resolved sensitivity coefficients are
nonnegative. -/
lemma resolveC_nonneg {env : Collab} (henv : ValidCollab env) (p : String)
    (cs : Bool) : ∀ j, 0 ≤ resolveC env p cs j := by
  intro j
  unfold resolveC
  split
  · fin_cases j
    · simpa using (henv p).1.le
    · simpa using (henv p).2.1.le
  · fin_cases j <;> simp [C1, C2] <;> norm_num

/-! Claim theorems. -/

/-- C1: for every pollutant in {SO2, BC, CH4}, radiative efficiency, time
horizon `th ≥ 0` and flags, `compute_atp` returns the pair `(iATP, ATP)`
given by the spec's two-term formulas over the decay timescales 8.4 and
409.5, evaluated at the resolved lifetime and coefficients; in
lifetime-range mode both formulas apply element-wise to the 3-element
lifetime array, giving 3-element results. -/
theorem C1_compute_atp_formula (env : Collab) (p : String) (hp : p ∈ SLP)
    (r th : ℝ) (hth : 0 ≤ th) (cs es : Bool) :
    ∃ s, SPECS p = some s ∧
      compute_atp env p r th cs es false =
        some (NumVal.scalar (spec_iATP (resolveRadEff env p r es) s.tau
                (resolveC env p cs 0) (resolveC env p cs 1) th),
              NumVal.scalar (spec_ATP (resolveRadEff env p r es) s.tau
                (resolveC env p cs 0) (resolveC env p cs 1) th)) ∧
      compute_atp env p r th cs es true =
        some (NumVal.vec3 fun i => spec_iATP (resolveRadEff env p r es) (taus s i)
                (resolveC env p cs 0) (resolveC env p cs 1) th,
              NumVal.vec3 fun i => spec_ATP (resolveRadEff env p r es) (taus s i)
                (resolveC env p cs 0) (resolveC env p cs 1) th) := by
  obtain ⟨s, hs⟩ := specs_of_mem hp
  have key_i : ∀ re tau : ℝ, iatp_sum re tau th (resolveC env p cs) =
      spec_iATP re tau (resolveC env p cs 0) (resolveC env p cs 1) th := by
    intro re tau
    simp [iatp_sum, spec_iATP, Fin.sum_univ_two, D]
  have key_a : ∀ re tau : ℝ, atp_sum re tau th (resolveC env p cs) =
      spec_ATP re tau (resolveC env p cs 0) (resolveC env p cs 1) th := by
    intro re tau
    simp [atp_sum, spec_ATP, Fin.sum_univ_two, D]
  refine ⟨s, hs, ?_, ?_⟩
  · rw [compute_atp_scalar env hp r th cs es hs, key_i, key_a]
  · rw [compute_atp_range env hp r th cs es hs]
    simp only [key_i, key_a]

/-- Witness for C1 at pollutant SO2, `rad_eff = 1`, `th = 5`, default flags. -/
theorem C1_compute_atp_formula_witness :
    ("SO2" ∈ SLP ∧ (0 : ℝ) ≤ 5) ∧
    (∃ s, SPECS "SO2" = some s ∧
      compute_atp defaultCollab "SO2" 1 5 true true false =
        some (NumVal.scalar (spec_iATP (resolveRadEff defaultCollab "SO2" 1 true) s.tau
                (resolveC defaultCollab "SO2" true 0) (resolveC defaultCollab "SO2" true 1) 5),
              NumVal.scalar (spec_ATP (resolveRadEff defaultCollab "SO2" 1 true) s.tau
                (resolveC defaultCollab "SO2" true 0) (resolveC defaultCollab "SO2" true 1) 5)) ∧
      compute_atp defaultCollab "SO2" 1 5 true true true =
        some (NumVal.vec3 fun i => spec_iATP (resolveRadEff defaultCollab "SO2" 1 true) (taus s i)
                (resolveC defaultCollab "SO2" true 0) (resolveC defaultCollab "SO2" true 1) 5,
              NumVal.vec3 fun i => spec_ATP (resolveRadEff defaultCollab "SO2" 1 true) (taus s i)
                (resolveC defaultCollab "SO2" true 0) (resolveC defaultCollab "SO2" true 1) 5)) :=
  ⟨⟨by simp [SLP], by norm_num⟩,
   C1_compute_atp_formula defaultCollab "SO2" (by simp [SLP]) 1 5 (by norm_num) true true⟩

/-- C2: `compute_app` obtains `(iATP, ATP)` from `compute_atp` with
`c_scaling = true`, `erf_scaling = true`, `lifetime_range = false`, and its
slow/fast integrated and pulse components equal the stated closed forms in
`Cf = 0.034`, the record's `tau`, `fp`, `k`, and `scale = rr/pr`. -/
theorem C2_compute_app_components (env : Collab) (p : String) (hp : p ∈ SLP)
    (r ra th rr pr : ℝ) :
    ∃ s, SPECS p = some s ∧ ∃ I A : ℝ,
      compute_atp env p r th true true false =
        some (NumVal.scalar I, NumVal.scalar A) ∧
      ∃ iarpp si fi arpp sa fa : ℝ,
        compute_app env p r ra th rr pr = some (iarpp, si, fi, arpp, sa, fa) ∧
        CF = 0.034 ∧
        si = CF * s.k * I * (rr / pr) ∧
        fi = CF * (-s.fp) * ra * s.tau * (1 - Real.exp (-th / s.tau)) * (rr / pr) ∧
        sa = CF * s.k * A * (rr / pr) ∧
        fa = CF * (-s.fp) * ra * Real.exp (-th / s.tau) * (rr / pr) := by
  obtain ⟨s, hs⟩ := specs_of_mem hp
  have hre : resolveRadEff env p r true = r := by
    unfold resolveRadEff
    split <;> rfl
  refine ⟨s, hs, iatp_sum r s.tau th (resolveC env p true),
    atp_sum r s.tau th (resolveC env p true), ?_,
    _, _, _, _, _, _, compute_app_eq env hp r ra th rr pr hs, rfl, rfl, rfl, rfl, rfl⟩
  rw [compute_atp_scalar env hp r th true true hs, hre]

/-- Witness for C2 at pollutant BC with concrete numeric arguments. -/
theorem C2_compute_app_components_witness :
    "BC" ∈ SLP ∧
    (∃ s, SPECS "BC" = some s ∧ ∃ I A : ℝ,
      compute_atp defaultCollab "BC" 1 20 true true false =
        some (NumVal.scalar I, NumVal.scalar A) ∧
      ∃ iarpp si fi arpp sa fa : ℝ,
        compute_app defaultCollab "BC" 1 2 20 3 4 = some (iarpp, si, fi, arpp, sa, fa) ∧
        CF = 0.034 ∧
        si = CF * s.k * I * (3 / 4) ∧
        fi = CF * (-s.fp) * 2 * s.tau * (1 - Real.exp (-20 / s.tau)) * (3 / 4) ∧
        sa = CF * s.k * A * (3 / 4) ∧
        fa = CF * (-s.fp) * 2 * Real.exp (-20 / s.tau) * (3 / 4)) :=
  ⟨by simp [SLP],
   C2_compute_app_components defaultCollab "BC" (by simp [SLP]) 1 2 20 3 4⟩

/-- C3: the six values returned by `compute_app` satisfy the exact
decomposition identities `integrated_arpp = slow_integrated + fast_integrated`
and `pulse_arpp = slow_pulse + fast_pulse` in real arithmetic. -/
theorem C3_arpp_decomposition (env : Collab) (p : String) (hp : p ∈ SLP)
    (r ra th rr pr : ℝ) :
    ∃ iarpp si fi arpp sa fa : ℝ,
      compute_app env p r ra th rr pr = some (iarpp, si, fi, arpp, sa, fa) ∧
      iarpp = si + fi ∧ arpp = sa + fa := by
  obtain ⟨s, hs⟩ := specs_of_mem hp
  exact ⟨_, _, _, _, _, _, compute_app_eq env hp r ra th rr pr hs, by ring, by ring⟩

/-- Witness for C3 at pollutant CH4 with concrete numeric arguments. -/
theorem C3_arpp_decomposition_witness :
    "CH4" ∈ SLP ∧
    (∃ iarpp si fi arpp sa fa : ℝ,
      compute_app defaultCollab "CH4" 1 2 20 3 4 = some (iarpp, si, fi, arpp, sa, fa) ∧
      iarpp = si + fi ∧ arpp = sa + fa) :=
  ⟨by simp [SLP],
   C3_arpp_decomposition defaultCollab "CH4" (by simp [SLP]) 1 2 20 3 4⟩

/-- C4: the `erf_scaling` adjustment applies only to SO2: disabling it
replaces `rad_eff` by `rad_eff` divided by the second component of the
multi-model scaling lookup for SO2, and for BC and CH4 the flag has no
effect on the output of `compute_atp`. -/
theorem C4_erf_scaling_so2_only (env : Collab) (r th : ℝ) (cs lr : Bool) :
    (compute_atp env "SO2" r th cs false lr =
      compute_atp env "SO2" (r / (env.get_mm_scaling "SO2").2) th cs true lr) ∧
    (∀ p, p = "BC" ∨ p = "CH4" → ∀ es es' : Bool,
      compute_atp env p r th cs es lr = compute_atp env p r th cs es' lr) := by
  constructor
  · have hre : resolveRadEff env "SO2" r false =
        resolveRadEff env "SO2" (r / (env.get_mm_scaling "SO2").2) true := by
      simp [resolveRadEff]
    simp only [compute_atp, hre]
  · intro p hpbc es es'
    have hre : resolveRadEff env p r es = resolveRadEff env p r es' := by
      rcases hpbc with rfl | rfl <;> simp [resolveRadEff]
    simp only [compute_atp, hre]

/-- Witness for C4: the BC/CH4 part instantiated at BC with both flag values. -/
theorem C4_erf_scaling_so2_only_witness :
    (compute_atp defaultCollab "SO2" 1 5 true false false =
      compute_atp defaultCollab "SO2" (1 / (defaultCollab.get_mm_scaling "SO2").2) 5
        true true false) ∧
    ("BC" = "BC" ∨ "BC" = "CH4") ∧
    compute_atp defaultCollab "BC" 1 5 true false false =
      compute_atp defaultCollab "BC" 1 5 true true false :=
  ⟨(C4_erf_scaling_so2_only defaultCollab 1 5 true false).1, Or.inl rfl,
   (C4_erf_scaling_so2_only defaultCollab 1 5 true false).2 "BC" (Or.inl rfl) false true⟩

/-- C5: for every pollutant outside {SO2, BC, CH4} both `compute_atp` and
`compute_app` fail (the pollutant assertion, the spec's `InvalidPollutant`)
and never return a numeric result. -/
theorem C5_invalid_pollutant (env : Collab) (p : String) (hp : p ∉ SLP)
    (r ra th rr pr : ℝ) (cs es lr : Bool) :
    compute_atp env p r th cs es lr = none ∧
    compute_app env p r ra th rr pr = none := by
  rw [compute_atp, if_neg hp, compute_app, if_neg hp]
  exact ⟨rfl, rfl⟩

/-- Witness for C5 at the literal pollutant string "XYZ". -/
theorem C5_invalid_pollutant_witness :
    "XYZ" ∉ SLP ∧
    compute_atp defaultCollab "XYZ" 1 5 true true false = none ∧
    compute_app defaultCollab "XYZ" 1 2 5 3 4 = none :=
  ⟨by simp [SLP],
   C5_invalid_pollutant defaultCollab "XYZ" (by simp [SLP]) 1 2 5 3 4 true true false⟩

/-- C7: with identical other arguments, `compute_atp` in lifetime-range mode
returns 3-element results evaluated at `[tau - tau_std, tau, tau + tau_std]`,
and the middle (nominal-lifetime) element of each equals exactly the scalar
returned with `lifetime_range = false`. -/
theorem C7_lifetime_range_middle (env : Collab) (p : String) (hp : p ∈ SLP)
    (r th : ℝ) (cs es : Bool) :
    ∃ s, SPECS p = some s ∧ ∃ v w : Fin 3 → ℝ, ∃ I A : ℝ,
      compute_atp env p r th cs es true = some (NumVal.vec3 v, NumVal.vec3 w) ∧
      (∀ i, v i = iatp_sum (resolveRadEff env p r es) (taus s i) th (resolveC env p cs)) ∧
      (∀ i, w i = atp_sum (resolveRadEff env p r es) (taus s i) th (resolveC env p cs)) ∧
      taus s 1 = s.tau ∧
      compute_atp env p r th cs es false = some (NumVal.scalar I, NumVal.scalar A) ∧
      v 1 = I ∧ w 1 = A := by
  obtain ⟨s, hs⟩ := specs_of_mem hp
  refine ⟨s, hs, _, _, _, _, compute_atp_range env hp r th cs es hs,
    fun i => rfl, fun i => rfl, by simp [taus],
    compute_atp_scalar env hp r th cs es hs, ?_, ?_⟩ <;> simp [taus]

/-- Witness for C7 at pollutant CH4. -/
theorem C7_lifetime_range_middle_witness :
    "CH4" ∈ SLP ∧
    (∃ s, SPECS "CH4" = some s ∧ ∃ v w : Fin 3 → ℝ, ∃ I A : ℝ,
      compute_atp defaultCollab "CH4" 1 5 true true true =
        some (NumVal.vec3 v, NumVal.vec3 w) ∧
      (∀ i, v i = iatp_sum (resolveRadEff defaultCollab "CH4" 1 true) (taus s i) 5
        (resolveC defaultCollab "CH4" true)) ∧
      (∀ i, w i = atp_sum (resolveRadEff defaultCollab "CH4" 1 true) (taus s i) 5
        (resolveC defaultCollab "CH4" true)) ∧
      taus s 1 = s.tau ∧
      compute_atp defaultCollab "CH4" 1 5 true true false =
        some (NumVal.scalar I, NumVal.scalar A) ∧
      v 1 = I ∧ w 1 = A) :=
  ⟨by simp [SLP],
   C7_lifetime_range_middle defaultCollab "CH4" (by simp [SLP]) 1 5 true true⟩

/-- C9: at time horizon `th = 0`, `compute_atp` returns zero for both the
integrated and the pulse potential, in scalar and lifetime-range mode. -/
theorem C9_zero_horizon (env : Collab) (p : String) (hp : p ∈ SLP) (r : ℝ)
    (cs es : Bool) :
    compute_atp env p r 0 cs es false =
      some (NumVal.scalar 0, NumVal.scalar 0) ∧
    compute_atp env p r 0 cs es true =
      some (NumVal.vec3 fun _ => 0, NumVal.vec3 fun _ => 0) := by
  obtain ⟨s, hs⟩ := specs_of_mem hp
  have hi : ∀ re tau : ℝ, iatp_sum re tau 0 (resolveC env p cs) = 0 := by
    intro re tau
    simp [iatp_sum]
  have ha : ∀ re tau : ℝ, atp_sum re tau 0 (resolveC env p cs) = 0 := by
    intro re tau
    simp [atp_sum]
  rw [compute_atp_scalar env hp r 0 cs es hs, compute_atp_range env hp r 0 cs es hs]
  simp [hi, ha]

/-- Witness for C9 at pollutant SO2. -/
theorem C9_zero_horizon_witness :
    "SO2" ∈ SLP ∧
    compute_atp defaultCollab "SO2" (-1) 0 true true false =
      some (NumVal.scalar 0, NumVal.scalar 0) ∧
    compute_atp defaultCollab "SO2" (-1) 0 true true true =
      some (NumVal.vec3 fun _ => 0, NumVal.vec3 fun _ => 0) :=
  ⟨by simp [SLP],
   C9_zero_horizon defaultCollab "SO2" (by simp [SLP]) (-1) true true⟩

/-- C8: for a fixed valid pollutant, positive radiative efficiency, fixed
scaling flags and valid (positive) collaborator scalings, the integrated
potential returned by `compute_atp` is non-decreasing in the time horizon
over `th ≥ 0`. -/
theorem C8_iatp_monotone (env : Collab) (henv : ValidCollab env) (p : String)
    (hp : p ∈ SLP) (r : ℝ) (hr : 0 < r) (cs es : Bool) (th1 th2 : ℝ)
    (h1 : 0 ≤ th1) (h12 : th1 ≤ th2) :
    ∃ I1 A1 I2 A2 : ℝ,
      compute_atp env p r th1 cs es false =
        some (NumVal.scalar I1, NumVal.scalar A1) ∧
      compute_atp env p r th2 cs es false =
        some (NumVal.scalar I2, NumVal.scalar A2) ∧
      I1 ≤ I2 := by
  obtain ⟨s, hs, hfacts⟩ := specs_tau_facts hp
  have htau : 0 < s.tau := (hfacts s.tau (by simp)).1
  refine ⟨_, _, _, _, compute_atp_scalar env hp r th1 cs es hs,
    compute_atp_scalar env hp r th2 cs es hs, ?_⟩
  exact iatp_sum_monotoneOn (resolveRadEff env p r es) s.tau (resolveC env p cs)
    (resolveRadEff_pos henv p hr es).le htau (resolveC_nonneg henv p cs)
    (Set.mem_Ici.2 h1) (Set.mem_Ici.2 (h1.trans h12)) h12

/-- Witness for C8 at pollutant BC, horizons 0 and 1. -/
theorem C8_iatp_monotone_witness :
    ValidCollab defaultCollab ∧ "BC" ∈ SLP ∧ (0 : ℝ) < 1 ∧ (0 : ℝ) ≤ 0 ∧ (0 : ℝ) ≤ 1 ∧
    (∃ I1 A1 I2 A2 : ℝ,
      compute_atp defaultCollab "BC" 1 0 true true false =
        some (NumVal.scalar I1, NumVal.scalar A1) ∧
      compute_atp defaultCollab "BC" 1 1 true true false =
        some (NumVal.scalar I2, NumVal.scalar A2) ∧
      I1 ≤ I2) := by
  have hv : ValidCollab defaultCollab := by
    intro q
    refine ⟨?_, ?_, ?_⟩ <;> norm_num [defaultCollab]
  exact ⟨hv, by simp [SLP], by norm_num, le_refl 0, by norm_num,
    C8_iatp_monotone defaultCollab hv "BC" (by simp [SLP]) 1 (by norm_num)
      true true 0 1 (le_refl 0) (by norm_num)⟩

/-- C10: every lifetime value actually used by the core — the nominal `tau`
and the lifetime-range endpoints `tau ± tau_std` — is strictly positive and
distinct from both decay timescales, so all denominators `tau - D[j]`,
`tau`, `D[j]` are nonzero. -/
theorem C10_lifetimes_safe (p : String) (hp : p ∈ SLP) :
    (∀ j : Fin 2, D j ≠ 0) ∧
    ∃ s, SPECS p = some s ∧
      ∀ t ∈ [s.tau - s.tau_std, s.tau, s.tau + s.tau_std],
        0 < t ∧ t ≠ 8.4 ∧ t ≠ 409.5 ∧ t - D 0 ≠ 0 ∧ t - D 1 ≠ 0 := by
  refine ⟨by intro j; fin_cases j <;> simp [D] <;> norm_num, ?_⟩
  obtain ⟨s, hs, hfacts⟩ := specs_tau_facts hp
  refine ⟨s, hs, fun t ht => ?_⟩
  obtain ⟨h0, h1, h2⟩ := hfacts t ht
  exact ⟨h0, h1, h2, by simpa [D, sub_ne_zero] using h1,
    by simpa [D, sub_ne_zero] using h2⟩

/-- Witness for C10 at pollutant CH4. -/
theorem C10_lifetimes_safe_witness :
    "CH4" ∈ SLP ∧
    ((∀ j : Fin 2, D j ≠ 0) ∧
    ∃ s, SPECS "CH4" = some s ∧
      ∀ t ∈ [s.tau - s.tau_std, s.tau, s.tau + s.tau_std],
        0 < t ∧ t ≠ 8.4 ∧ t ≠ 409.5 ∧ t - D 0 ≠ 0 ∧ t - D 1 ≠ 0) :=
  ⟨by simp [SLP], C10_lifetimes_safe "CH4" (by simp [SLP])⟩

end Rem
